import Mathlib

/-!
Shallow embedding of the multiplayer game-session subsystem of the
quiz-app backend: lobby creation and join, game-session creation,
answer submission (REST and WebSocket paths), auto-fail recording,
the question-started broadcast, and game finalization with XP awards.

Python dicts are modelled as insertion-ordered association lists
(`List (String × α)`), MongoDB update operators as the corresponding
list transformations, floats as rationals, and Python ints as `Int`
(or `Nat` where the source value is a count or a sum of non-negative
points).  Fallible endpoints return `Except String`.
-/

namespace QuizApp

/-- Python `int()` applied to a float: truncation toward zero. -/
def pyInt (q : ℚ) : ℤ :=
  if 0 ≤ q then ⌊q⌋ else ⌈q⌉

/-- Python `round()` applied to a float: round half to even. -/
def pyRound (q : ℚ) : ℤ :=
  let f := ⌊q⌋
  let frac := q - (f : ℚ)
  if frac < 1/2 then f
  else if 1/2 < frac then f + 1
  else if f % 2 = 0 then f else f + 1

/-- Dictionary read with default, `d.get(key, default)`: first binding wins. -/
def lookupD {α : Type} : List (String × α) → String → α → α
  | [], _, d => d
  | (k, v) :: rest, key, d => if k = key then v else lookupD rest key d

/-- Dictionary write `d[key] = v`: replaces the value in place if the key
exists, otherwise appends the binding at the end (Python insertion order). -/
def setKey {α : Type} : List (String × α) → String → α → List (String × α)
  | [], key, v => [(key, v)]
  | (k, w) :: rest, key, v =>
    if k = key then (k, v) :: rest else (k, w) :: setKey rest key v

/-- A generated multiplayer question as stored in a game session:
`{question_text, options, correct_answer, category, difficulty}`
(the `subcategory`/`keyword` bookkeeping fields are not read by any
code under verification and are omitted). -/
structure Question where
  question_text : String
  options : List String
  correct_answer : String
  category : String
  difficulty : ℤ
  deriving DecidableEq

/-- One recorded answer, as pushed onto `player_answers.{user_id}`. -/
structure AnswerRecord where
  question_index : ℤ
  answer : String
  time_taken : ℚ
  is_correct : Bool
  points : ℤ
  deriving DecidableEq

/-- A lobby member entry of `lobby["players"]`. -/
structure Player where
  user_id : String
  username : String
  picture : String
  ready : Bool
  score : ℤ
  connected : Bool
  deriving DecidableEq

/-- An entry of a lobby `question_list` plan:
`{category, subject, difficulty, count}`. -/
structure QuestionSetSpec where
  category : String
  subject : String
  difficulty : ℤ
  count : ℕ
  deriving DecidableEq

/-- The lobby document fields read or written by the code under
verification (`datetime` bookkeeping fields are omitted). -/
structure Lobby where
  lobby_code : String
  creator_id : String
  creator_username : String
  categories : List String
  difficulty : ℤ
  question_timer : ℤ
  max_players : ℤ
  question_list : List QuestionSetSpec
  players : List Player
  status : String
  deriving DecidableEq

/-- The authenticated user document fields the lobby code reads. -/
structure User where
  _id : String
  username : String
  profile_picture : String
  deriving DecidableEq

/-- A `multiplayer_game_sessions` document (fields the game-action
endpoints read or write). -/
structure GameSession where
  lobby_code : String
  questions : List Question
  current_question_index : ℤ
  player_answers : List (String × List AnswerRecord)
  deriving DecidableEq

/-- `GameController.calculate_score` (game_controller.py), and the inline
scoring block of the REST `submit_answer` endpoint (multiplayer_routes.py),
which computes the identical expression:
`time_ratio = min(time_taken/timer, 1.0)`,
`points = int(1000 * (1 - time_ratio * 0.5))`, `max(points, 500)`,
and `0` when the answer is incorrect. -/
def calculate_score (is_correct : Bool) (time_taken : ℚ) (timer_duration : ℤ) : ℤ :=
  if !is_correct then 0
  else
    let tr := min (time_taken / (timer_duration : ℚ)) 1
    let time_multiplier := 1 - tr * (1/2)
    let points := pyInt (1000 * time_multiplier)
    max points 500

/-- The scoring formula exactly as the specification words it:
`max(500, round(1000 * (1 - 0.5 * min(time_taken/question_timer, 1.0))))`,
with `round` as Python rounding. -/
def spec_points_formula (time_taken : ℚ) (question_timer : ℤ) : ℤ :=
  max 500 (pyRound (1000 * (1 - (1/2) * min (time_taken / (question_timer : ℚ)) 1)))

/-- The Kahoot-style scoring block of the WebSocket `handle_submit_answer`
(game_handlers.py): `max(0, round(100 - min(time_taken/question_timer, 1.0) * 100))`
when correct, `0` when incorrect. -/
def ws_points (is_correct : Bool) (time_taken : ℚ) (question_timer : ℤ) : ℤ :=
  if is_correct then
    let tr := min (time_taken / (question_timer : ℚ)) 1
    max 0 (pyRound (100 - tr * 100))
  else 0

/-- The player entry appended by `add_player_to_lobby` and `create_lobby`:
`{user_id, username, picture, ready: False, score: 0, connected: True}`. -/
def newPlayerOf (user : User) : Player :=
  { user_id := user._id
    username := user.username
    picture := user.profile_picture
    ready := false
    score := 0
    connected := true }

/-- The MongoDB positional update
`{"players.user_id": uid} / {$set: {"players.$.connected": True}}`:
sets `connected` on the first array element whose `user_id` matches. -/
def markConnectedFirst : List Player → String → List Player
  | [], _ => []
  | p :: rest, uid =>
    if p.user_id = uid then { p with connected := true } :: rest
    else p :: markConnectedFirst rest uid

/-- `LobbyRepository.add_player_to_lobby` (identical logic in
common/repositories/lobby_repository.py and
multiplayer/server/models/repositories/lobby_repository.py):
raises if the lobby is unknown; raises `"Lobby is full"` when
`len(players) >= max_players`; otherwise marks an existing member
connected, or appends a fresh player entry. -/
def add_player_to_lobby (lobby : Option Lobby) (user : User) : Except String Lobby :=
  match lobby with
  | none => .error "Lobby not found"
  | some lobby =>
    if lobby.max_players ≤ (lobby.players.length : ℤ) then
      .error "Lobby is full"
    else if lobby.players.any (fun p => p.user_id = user._id) then
      .ok { lobby with players := markConnectedFirst lobby.players user._id }
    else
      .ok { lobby with players := lobby.players ++ [newPlayerOf user] }

/-- `LobbyRepository.create_lobby`: the freshly generated unique code is
passed in as `code` (random code generation and collision retry are not
modelled); seeds `players` with the creator. -/
def mkLobbyDoc (code : String) (user : User) (categories : List String)
    (difficulty question_timer max_players : ℤ) : Lobby :=
  { lobby_code := code
    creator_id := user._id
    creator_username := user.username
    categories := categories
    difficulty := difficulty
    question_timer := question_timer
    max_players := max_players
    question_list := []
    players := [newPlayerOf user]
    status := "waiting" }

/-- The REST `create_lobby` endpoint (multiplayer_routes.py): validates
categories non-empty, `difficulty in [1,2,3]`, `2 <= max_players <= 20`,
`10 <= question_timer <= 120` in that order, then inserts the lobby into
the `multiplayer_lobbies` collection (modelled as a list of documents). -/
def route_create_lobby (code : String) (user : User) (categories : List String)
    (difficulty question_timer max_players : ℤ) (store : List Lobby) :
    Except String Lobby × List Lobby :=
  if categories.isEmpty then
    (.error "At least one category is required", store)
  else if ¬(difficulty = 1 ∨ difficulty = 2 ∨ difficulty = 3) then
    (.error "Difficulty must be 1, 2, or 3", store)
  else if max_players < 2 ∨ 20 < max_players then
    (.error "Max players must be between 2 and 20", store)
  else if question_timer < 10 ∨ 120 < question_timer then
    (.error "Question timer must be between 10 and 120 seconds", store)
  else
    let lobby := mkLobbyDoc code user categories difficulty question_timer max_players
    (.ok lobby, store ++ [lobby])

/-- `LobbyController.create_lobby` (lobby_controller.py): validates
categories non-empty, `difficulty in [1,2,3]` and `2 <= max_players <= 20`,
then creates the lobby.  It performs no validation of `question_timer`. -/
def controller_create_lobby (code : String) (user : User) (categories : List String)
    (difficulty question_timer max_players : ℤ) (store : List Lobby) :
    Except String Lobby × List Lobby :=
  if categories.isEmpty then
    (.error "At least one category is required", store)
  else if ¬(difficulty = 1 ∨ difficulty = 2 ∨ difficulty = 3) then
    (.error "Difficulty must be 1, 2, or 3", store)
  else if max_players < 2 ∨ 20 < max_players then
    (.error "Max players must be between 2 and 20", store)
  else
    let lobby := mkLobbyDoc code user categories difficulty question_timer max_players
    (.ok lobby, store ++ [lobby])

/-- Abstraction of one AI generation attempt inside `create_game_session`
(multiplayer_routes.py): for a question set and the iteration number
within it, the keyword lookup, style-modifier lookup and
`generate_multiplayer_question` call either jointly produce a question
or raise (`none`). -/
def GenOracle : Type :=
  QuestionSetSpec → ℕ → Option Question

/-- The inner `for i in range(count)` loop of `create_game_session`:
generate `k` more questions of set `s`, starting at iteration `i`;
the first failing attempt aborts the whole request. -/
def genSet (gen : GenOracle) (s : QuestionSetSpec) : ℕ → ℕ → Except String (List Question)
  | _, 0 => .ok []
  | i, k + 1 =>
    match gen s i with
    | none => .error ("Failed to generate question for " ++ s.category ++ "/" ++ s.subject)
    | some q =>
      match genSet gen s (i + 1) k with
      | .error e => .error e
      | .ok qs => .ok (q :: qs)

/-- The outer `for question_set in question_list` loop of
`create_game_session`: concatenates the generated sets, failing fast. -/
def generateQuestions (gen : GenOracle) : List QuestionSetSpec → Except String (List Question)
  | [] => .ok []
  | s :: rest =>
    match genSet gen s 0 s.count with
    | .error e => .error e
    | .ok qs =>
      match generateQuestions gen rest with
      | .error e => .error e
      | .ok qs2 => .ok (qs ++ qs2)

/-- `total_expected = sum(qs.get("count", 1) for qs in question_list)`. -/
def totalExpected (plan : List QuestionSetSpec) : ℕ :=
  (plan.map QuestionSetSpec.count).sum

/-- The game-session document inserted by `create_game_session`:
`{lobby_code, questions, current_question_index: -1, player_answers: {}}`
(identifier and timestamp fields omitted). -/
def mkSessionDoc (lobby : Lobby) (questions : List Question) : GameSession :=
  { lobby_code := lobby.lobby_code
    questions := questions
    current_question_index := -1
    player_answers := [] }

/-- The REST `create_game_session` endpoint (multiplayer_routes.py):
rejects an empty `question_list`, rejects an unknown lobby, generates
every question of the plan failing fast on the first generation error
(returning before any insert), and only on full success inserts the
session document into `multiplayer_game_sessions`. -/
def create_game_session (gen : GenOracle) (lobby : Option Lobby)
    (plan : List QuestionSetSpec) (store : List GameSession) :
    Except String GameSession × List GameSession :=
  if plan.isEmpty then
    (.error "question_list is required", store)
  else
    match lobby with
    | none => (.error "Lobby not found", store)
    | some lobby =>
      match generateQuestions gen plan with
      | .error e => (.error e, store)
      | .ok qs =>
        let doc := mkSessionDoc lobby qs
        (.ok doc, store ++ [doc])

/-- The answers list a session holds for `user_id`
(`session.get("player_answers", {}).get(user_id, [])`). -/
def answersOf (s : GameSession) (user_id : String) : List AnswerRecord :=
  lookupD s.player_answers user_id []

/-- `any(a["question_index"] == idx for a in player_answers)`. -/
def hasAnswerAt (s : GameSession) (user_id : String) (idx : ℤ) : Bool :=
  (answersOf s user_id).any (fun a => a.question_index == idx)

/-- Number of answer records of `user_id` carrying `question_index = idx`. -/
def countAnswersAt (s : GameSession) (user_id : String) (idx : ℤ) : ℕ :=
  (answersOf s user_id).countP (fun a => a.question_index == idx)

/-- The MongoDB update `$push: {player_answers.{user_id}: record}`:
appends to the array at that key, creating it when absent. -/
def pushAnswer (s : GameSession) (user_id : String) (rec : AnswerRecord) : GameSession :=
  { s with player_answers := setKey s.player_answers user_id (answersOf s user_id ++ [rec]) }

/-- The zero-point incorrect record synthesized by `record_auto_fail`:
`{question_index, answer: "", time_taken: 0, is_correct: False, points: 0}`. -/
def autoFailRecord (question_index : ℤ) : AnswerRecord :=
  { question_index := question_index
    answer := ""
    time_taken := 0
    is_correct := false
    points := 0 }

/-- The REST `record_auto_fail` endpoint (multiplayer_routes.py), from the
point where the session document was found: if the user already has an
answer record for `question_index` it skips (returning `skipped=True`)
and performs no update; otherwise it pushes exactly one auto-fail record.
The returned Bool is the `skipped` flag. -/
def record_auto_fail (s : GameSession) (user_id : String) (question_index : ℤ) :
    GameSession × Bool :=
  if hasAnswerAt s user_id question_index then
    (s, true)
  else
    (pushAnswer s user_id (autoFailRecord question_index), false)

/-- The response body of a successful REST `submit_answer` call:
`{success, is_correct, points_earned, total_score, correct_answer}`. -/
structure SubmitResponse where
  is_correct : Bool
  points_earned : ℤ
  total_score : ℤ
  correct_answer : String
  deriving DecidableEq

/-- The REST `submit_answer` endpoint (multiplayer_routes.py), from the
point where the session and lobby documents were found: validates that a
question is active and that the user has not answered it yet, scores the
answer on the 1000-point curve, pushes the record, and answers with the
running total and the correct answer. -/
def rest_submit_answer (s : GameSession) (lobby : Lobby) (user_id answer : String)
    (time_taken : ℚ) : Except String (GameSession × SubmitResponse) :=
  let idx := s.current_question_index
  if h : idx < 0 ∨ (s.questions.length : ℤ) ≤ idx then
    .error "No active question"
  else
    if hasAnswerAt s user_id idx then
      .error "Already answered this question"
    else
      let q := s.questions.get ⟨idx.toNat, by omega⟩
      let is_correct := answer == q.correct_answer
      let points := calculate_score is_correct time_taken lobby.question_timer
      let record := { question_index := idx, answer := answer, time_taken := time_taken,
                      is_correct := is_correct, points := points : AnswerRecord }
      let total_score := ((answersOf s user_id ++ [record]).map AnswerRecord.points).sum
      .ok (pushAnswer s user_id record,
           { is_correct := is_correct
             points_earned := points
             total_score := total_score
             correct_answer := q.correct_answer })

/-- `if 0 <= current_question_index < len(questions)` then that question. -/
def currentQuestion? (s : GameSession) : Option Question :=
  if h : s.current_question_index < 0 ∨ (s.questions.length : ℤ) ≤ s.current_question_index then
    none
  else
    some (s.questions.get ⟨s.current_question_index.toNat, by omega⟩)

/-- The Redis game-state document written by `start_game_with_countdown`
and mutated by the WebSocket handlers (the fields `handle_submit_answer`
reads or writes; `current_question` is set by `run_game_loop` before any
submission is accepted). -/
structure GameState where
  lobby_code : String
  current_question_index : ℤ
  current_question : Question
  question_timer : ℤ
  total_questions : ℕ
  player_scores : List (String × ℤ)
  player_answers : List (String × List AnswerRecord)
  deriving DecidableEq

/-- The `answer_recorded` acknowledgment emitted to the submitting player
by the WebSocket `handle_submit_answer`. -/
structure AckPayload where
  points_earned : ℤ
  is_correct : Bool
  time_taken : ℚ
  new_total : ℤ
  correct_answer : String
  deriving DecidableEq

/-- The state-mutating core of the WebSocket `handle_submit_answer`
(game_handlers.py), from the point where the game state was found:
scores the answer on the 0-100 curve, adds the points to
`player_scores[user_id]`, appends the answer record to
`player_answers[user_id]` (no duplicate check of any kind), and returns
the updated state together with the `answer_recorded` acknowledgment. -/
def ws_submit_answer (gs : GameState) (user_id answer : String) (time_taken : ℚ) :
    GameState × AckPayload :=
  let correct_answer := gs.current_question.correct_answer
  let is_correct := answer == correct_answer
  let points_earned := ws_points is_correct time_taken gs.question_timer
  let old_score := lookupD gs.player_scores user_id 0
  let new_total := old_score + points_earned
  let scores := setKey gs.player_scores user_id new_total
  let user_records := lookupD gs.player_answers user_id []
  let record := { question_index := gs.current_question_index, answer := answer,
                  time_taken := time_taken, is_correct := is_correct,
                  points := points_earned : AnswerRecord }
  let answers := setKey gs.player_answers user_id (user_records ++ [record])
  ({ gs with player_scores := scores, player_answers := answers },
   { points_earned := points_earned
     is_correct := is_correct
     time_taken := time_taken
     new_total := new_total
     correct_answer := correct_answer })

/-- Number of answer records of `user_id` at `question_index = idx` in the
Redis game state. -/
def wsCountAnswersAt (gs : GameState) (user_id : String) (idx : ℤ) : ℕ :=
  (lookupD gs.player_answers user_id []).countP (fun a => a.question_index == idx)

/-- A JSON-ish payload value of a Socket.IO event. -/
inductive PValue where
  | str : String → PValue
  | int : ℤ → PValue
  | strList : List String → PValue
  deriving DecidableEq

/-- The `question_started` event payload emitted by `run_game_loop`
(game_events.py), as a key-ordered association list mirroring the Python
dict literal (`category`/`difficulty` use `.get` defaults that never fire
because session creation always stores both fields). -/
def question_started_payload (q : Question) (question_index : ℕ)
    (total_questions : ℕ) (question_timer : ℤ) : List (String × PValue) :=
  [("question", .str q.question_text),
   ("options", .strList q.options),
   ("category", .str q.category),
   ("difficulty", .int q.difficulty),
   ("question_number", .int ((question_index : ℤ) + 1)),
   ("total_questions", .int (total_questions : ℤ)),
   ("time_limit", .int question_timer)]

/-- `enumerate(ranked_players, start=1)` combined with the per-player XP
computation of the REST `finalize_game` endpoint:
`base_xp = int(score / 10)`, plus `winner_bonus` for rank 1 only. -/
def awardsFrom (winner_bonus : ℕ) (rank : ℕ) : List (String × ℕ) → List (String × ℕ)
  | [] => []
  | p :: rest =>
    (p.1, p.2 / 10 + if rank = 1 then winner_bonus else 0) :: awardsFrom winner_bonus (rank + 1) rest

/-- The XP persistence of the `finalize_game` loop: for each ranked player
in order, `$inc` the durable XP total by the awarded amount (the same
amount is also added to the user profile through `add_bonus_xp`). -/
def applyAwards : List (String × ℕ) → (String → ℕ) → (String → ℕ)
  | [], st => st
  | a :: rest, st => applyAwards rest (fun u => if u = a.1 then st u + a.2 else st u)

/-- The outcome of `finalize_game`: the descending ranking, the
`xp_awarded` map returned to the caller, and the durable per-user XP
totals after the loop ran. -/
structure FinalizeResult where
  ranked : List (String × ℕ)
  xp_awarded : List (String × ℕ)
  xp_store : String → ℕ

/-- The XP core of the REST `finalize_game` endpoint
(multiplayer_routes.py): `winner_bonus = 10 * (player_count - 1)` when
more than one player, players sorted by score descending
(`sorted(..., key=score, reverse=True)`, a stable descending sort), XP
computed per rank and persisted via `$inc` per player. -/
def finalize_game (player_scores : List (String × ℕ)) (xp_store : String → ℕ) :
    FinalizeResult :=
  let player_count := player_scores.length
  let winner_bonus := if 1 < player_count then 10 * (player_count - 1) else 0
  let ranked := List.insertionSort (fun a b => b.2 ≤ a.2) player_scores
  let awards := awardsFrom winner_bonus 1 ranked
  { ranked := ranked
    xp_awarded := awards
    xp_store := applyAwards awards xp_store }

/-- `{p with connected := true}`: used to state that an operation may
change nothing but the `connected` flag. -/
def withConnectedTrue (p : Player) : Player :=
  { p with connected := true }

/-- Every attempt of the generation plan succeeds: for each question set
and each iteration below its count, the oracle produces a question. -/
def allGenerated (gen : GenOracle) (plan : List QuestionSetSpec) : Prop :=
  ∀ s ∈ plan, ∀ j < s.count, (gen s j).isSome = true

/-- A sample question whose correct answer is `"A"`. -/
def sampleQuestion : Question :=
  { question_text := "What is the chemical symbol for water"
    options := ["A", "B", "C", "D"]
    correct_answer := "A"
    category := "Science"
    difficulty := 2 }

/-- `sampleQuestion` with a different correct answer and all broadcast
fields unchanged. -/
def sampleQuestionAlt : Question :=
  { sampleQuestion with correct_answer := "B" }

/-- A Redis game state in which player `"u1"` already has an answer
record for the active question index 0. -/
def sampleState : GameState :=
  { lobby_code := "ABC123"
    current_question_index := 0
    current_question := sampleQuestion
    question_timer := 30
    total_questions := 3
    player_scores := [("u1", 50)]
    player_answers :=
      [("u1", [{ question_index := 0, answer := "B", time_taken := 3,
                 is_correct := false, points := 0 }])] }

/-- A game session on question 0 with no recorded answers yet. -/
def sampleSession : GameSession :=
  { lobby_code := "ABC123"
    questions := [sampleQuestion, sampleQuestionAlt]
    current_question_index := 0
    player_answers := [] }

/-- A sample authenticated user. -/
def userA : User :=
  { _id := "u1", username := "alice", profile_picture := "" }

/-- A lobby player entry for `userA`. -/
def playerA : Player :=
  { user_id := "u1", username := "alice", picture := "", ready := true,
    score := 0, connected := false }

/-- A second lobby player entry. -/
def playerB : Player :=
  { user_id := "u2", username := "bob", picture := "", ready := true,
    score := 0, connected := true }

/-- A full lobby (`max_players = 2`, two players) of which `userA` is
already a member. -/
def fullLobby : Lobby :=
  { lobby_code := "ABC123"
    creator_id := "u1"
    creator_username := "alice"
    categories := ["Science"]
    difficulty := 2
    question_timer := 30
    max_players := 2
    question_list := []
    players := [playerA, playerB]
    status := "waiting" }

/-- The same lobby with room for a third player. -/
def roomyLobby : Lobby :=
  { fullLobby with max_players := 3 }

theorem lookupD_setKey_self {α : Type} (m : List (String × α)) (k : String) (v d : α) :
    lookupD (setKey m k v) k d = v := by
  induction m with
  | nil => simp [setKey, lookupD]
  | cons a rest ih =>
    by_cases h : a.1 = k
    · simp [setKey, h, lookupD]
    · simp [setKey, h, lookupD, ih]

theorem lookupD_setKey_ne {α : Type} (m : List (String × α)) (k k' : String) (v d : α)
    (h : k' ≠ k) : lookupD (setKey m k v) k' d = lookupD m k' d := by
  induction m with
  | nil => simp [setKey, lookupD, Ne.symm h]
  | cons a rest ih =>
    by_cases ha : a.1 = k
    · simp [setKey, ha, lookupD, Ne.symm h]
    · simp [setKey, ha, lookupD, ih]

theorem answersOf_pushAnswer_self (s : GameSession) (u : String) (r : AnswerRecord) :
    answersOf (pushAnswer s u r) u = answersOf s u ++ [r] := by
  simp [answersOf, pushAnswer, lookupD_setKey_self]

theorem answersOf_pushAnswer_ne (s : GameSession) (u v : String) (r : AnswerRecord)
    (h : v ≠ u) : answersOf (pushAnswer s u r) v = answersOf s v := by
  simp [answersOf, pushAnswer, lookupD_setKey_ne _ _ _ _ _ h]

/-- C9: recording an auto-fail is idempotent: when an answer record for
`(user_id, question_index)` already exists the call records nothing and
leaves the session unchanged; otherwise it appends exactly one record
with empty answer, `is_correct = false` and 0 points, touching no other
player and no other session field; calling it twice in sequence for the
same pair yields exactly one record. -/
theorem record_auto_fail_idempotent (s : GameSession) (u : String) (qi : ℤ) :
    (hasAnswerAt s u qi = true → record_auto_fail s u qi = (s, true)) ∧
    (hasAnswerAt s u qi = false →
      (record_auto_fail s u qi).2 = false ∧
      answersOf (record_auto_fail s u qi).1 u = answersOf s u ++ [autoFailRecord qi] ∧
      (∀ v, v ≠ u → answersOf (record_auto_fail s u qi).1 v = answersOf s v) ∧
      (record_auto_fail s u qi).1.questions = s.questions ∧
      (record_auto_fail s u qi).1.current_question_index = s.current_question_index ∧
      countAnswersAt (record_auto_fail s u qi).1 u qi = 1 ∧
      (record_auto_fail (record_auto_fail s u qi).1 u qi).1 = (record_auto_fail s u qi).1) := by
  constructor
  · intro h
    simp [record_auto_fail, h]
  · intro h
    have hrun : record_auto_fail s u qi = (pushAnswer s u (autoFailRecord qi), false) := by
      simp [record_auto_fail, h]
    have hnone : ∀ a ∈ answersOf s u, ¬a.question_index = qi := by
      simpa [hasAnswerAt] using h
    have hzero : (answersOf s u).countP (fun a => a.question_index == qi) = 0 := by
      rw [List.countP_eq_zero]
      intro a ha
      simpa using hnone a ha
    have happ : answersOf (pushAnswer s u (autoFailRecord qi)) u =
        answersOf s u ++ [autoFailRecord qi] := answersOf_pushAnswer_self s u _
    have hsecond : hasAnswerAt (pushAnswer s u (autoFailRecord qi)) u qi = true := by
      unfold hasAnswerAt
      rw [happ]
      simp [autoFailRecord]
    refine ⟨by simp [hrun], by simp [hrun, happ], ?_, by simp [hrun, pushAnswer],
      by simp [hrun, pushAnswer], ?_, ?_⟩
    · intro v hv
      simp [hrun, answersOf_pushAnswer_ne s u v _ hv]
    · rw [hrun]
      show countAnswersAt (pushAnswer s u (autoFailRecord qi)) u qi = 1
      unfold countAnswersAt
      rw [happ, List.countP_append, hzero]
      simp [autoFailRecord]
    · rw [hrun]
      show (record_auto_fail (pushAnswer s u (autoFailRecord qi)) u qi).1 =
        pushAnswer s u (autoFailRecord qi)
      unfold record_auto_fail
      rw [if_pos hsecond]

/-- Witness for C9 at a concrete session with no answer recorded for
`("u1", 0)`. -/
theorem record_auto_fail_idempotent_witness :
    hasAnswerAt sampleSession "u1" 0 = false ∧
    ((record_auto_fail sampleSession "u1" 0).2 = false ∧
      answersOf (record_auto_fail sampleSession "u1" 0).1 "u1" =
        answersOf sampleSession "u1" ++ [autoFailRecord 0] ∧
      (∀ v, v ≠ "u1" → answersOf (record_auto_fail sampleSession "u1" 0).1 v =
        answersOf sampleSession v) ∧
      (record_auto_fail sampleSession "u1" 0).1.questions = sampleSession.questions ∧
      (record_auto_fail sampleSession "u1" 0).1.current_question_index =
        sampleSession.current_question_index ∧
      countAnswersAt (record_auto_fail sampleSession "u1" 0).1 "u1" 0 = 1 ∧
      (record_auto_fail (record_auto_fail sampleSession "u1" 0).1 "u1" 0).1 =
        (record_auto_fail sampleSession "u1" 0).1) :=
  ⟨by decide, (record_auto_fail_idempotent sampleSession "u1" 0).2 (by decide)⟩

/-- C1: evaluation of the WebSocket `handle_submit_answer` path at a
state in which `"u1"` already has an answer record for the active
question index 0: the handler performs no duplicate check, so the second
submission is accepted, a second record for the same
`(user_id, question_index)` pair is appended, and the points are added
to the score again — contradicting the at-most-one-answer invariant that
the REST `submit_answer` path enforces. -/
theorem ws_submit_answer_double_records :
    wsCountAnswersAt sampleState "u1" 0 = 1 ∧
    wsCountAnswersAt (ws_submit_answer sampleState "u1" "A" 2).1 "u1" 0 = 2 ∧
    lookupD (ws_submit_answer sampleState "u1" "A" 2).1.player_scores "u1" 0 =
      50 + ws_points true 2 30 := by
  refine ⟨by decide, by decide, ?_⟩
  show lookupD (setKey sampleState.player_scores "u1"
    (lookupD sampleState.player_scores "u1" 0 + ws_points true 2 30)) "u1" 0 =
      50 + ws_points true 2 30
  rw [lookupD_setKey_self]
  have h50 : lookupD sampleState.player_scores "u1" 0 = 50 := by decide
  rw [h50]

/-- C5: evaluation of the REST `finalize_game` XP persistence at a
two-player session finalized twice with the same scores: the first call
persists 20 XP for the winner, and the second call — which nothing in
the endpoint guards against — increments the same counters again,
leaving 40 XP where the claim requires 20. -/
theorem finalize_game_double_award :
    (finalize_game [("u1", 100), ("u2", 50)] (fun _ => 0)).xp_store "u1" = 20 ∧
    (finalize_game [("u1", 100), ("u2", 50)]
      ((finalize_game [("u1", 100), ("u2", 50)] (fun _ => 0)).xp_store)).xp_store "u1" = 40 ∧
    (40 : ℕ) ≠ 20 := by
  refine ⟨by decide, by decide, by decide⟩

theorem calculate_score_correct_eq_floor (t : ℚ) (timer : ℤ) :
    calculate_score true t timer = max 500 ⌊(1000 : ℚ) * (1 - (1/2) * min (t / (timer : ℚ)) 1)⌋ := by
  have htr1 : min (t / (timer : ℚ)) 1 ≤ 1 := min_le_right _ _
  have h0 : (0 : ℚ) ≤ 1000 * (1 - min (t / (timer : ℚ)) 1 * (1/2)) := by nlinarith
  simp only [calculate_score, Bool.not_true, Bool.false_eq_true, if_false]
  rw [pyInt, if_pos h0, max_comm]
  congr 2
  ring

/-- C2 counterexample: a correct answer after 1 second with a 120-second
timer: the code truncates `1000 * (1 - 0.5/120) = 995.83…` to 995 via
`int(...)`, while the round-based formula of the claim yields 996. -/
theorem calculate_score_truncates_not_rounds :
    calculate_score true 1 120 = 995 ∧ spec_points_formula 1 120 = 996 ∧
    (995 : ℤ) ≠ 996 := by
  refine ⟨?_, ?_, by decide⟩
  · norm_num [calculate_score, pyInt, Int.floor_eq_iff]
  · norm_num [spec_points_formula, pyRound, Int.floor_eq_iff]

/-- C2 (amended): for every answer submission with `question_timer > 0`,
an incorrect answer awards 0 points; a correct answer awards
`max(500, floor(1000 * (1 - 0.5 * min(time_taken/question_timer, 1.0))))`
— truncation, not rounding; in particular a correct answer at
`time_taken = 0` yields 1000 points and a correct answer at
`time_taken >= question_timer` yields 500 points. -/
theorem submit_answer_scoring (t : ℚ) (timer : ℤ) (ht : 0 ≤ t) (htimer : 0 < timer) :
    calculate_score false t timer = 0 ∧
    calculate_score true t timer =
      max 500 ⌊(1000 : ℚ) * (1 - (1/2) * min (t / (timer : ℚ)) 1)⌋ ∧
    calculate_score true 0 timer = 1000 ∧
    ((timer : ℚ) ≤ t → calculate_score true t timer = 500) := by
  have htq : (0 : ℚ) < (timer : ℚ) := by exact_mod_cast htimer
  refine ⟨by simp [calculate_score], calculate_score_correct_eq_floor t timer, ?_, ?_⟩
  · rw [calculate_score_correct_eq_floor]
    rw [zero_div]
    norm_num
  · intro hle
    rw [calculate_score_correct_eq_floor]
    have h1 : (1 : ℚ) ≤ t / (timer : ℚ) := (one_le_div htq).mpr hle
    rw [min_eq_right h1]
    norm_num

/-- Witness for C2 at `time_taken = 5`, `question_timer = 30`. -/
theorem submit_answer_scoring_witness :
    (0 : ℚ) ≤ 5 ∧ (0 : ℤ) < 30 ∧
    (calculate_score false 5 30 = 0 ∧
     calculate_score true 5 30 =
       max 500 ⌊(1000 : ℚ) * (1 - (1/2) * min ((5 : ℚ) / ((30 : ℤ) : ℚ)) 1)⌋ ∧
     calculate_score true 0 30 = 1000 ∧
     (((30 : ℤ) : ℚ) ≤ 5 → calculate_score true 5 30 = 500)) :=
  ⟨by norm_num, by decide, submit_answer_scoring 5 30 (by norm_num) (by decide)⟩

theorem length_markConnectedFirst (l : List Player) (uid : String) :
    (markConnectedFirst l uid).length = l.length := by
  induction l with
  | nil => rfl
  | cons p rest ih =>
    by_cases h : p.user_id = uid <;> simp [markConnectedFirst, h, ih]

theorem map_user_id_markConnectedFirst (l : List Player) (uid : String) :
    (markConnectedFirst l uid).map Player.user_id = l.map Player.user_id := by
  induction l with
  | nil => rfl
  | cons p rest ih =>
    by_cases h : p.user_id = uid <;> simp [markConnectedFirst, h, ih]

theorem map_withConnectedTrue_markConnectedFirst (l : List Player) (uid : String) :
    (markConnectedFirst l uid).map withConnectedTrue = l.map withConnectedTrue := by
  induction l with
  | nil => rfl
  | cons p rest ih =>
    by_cases h : p.user_id = uid <;> simp [markConnectedFirst, h, ih, withConnectedTrue]

theorem mem_markConnectedFirst_of_ne {p : Player} {l : List Player} {uid : String}
    (hp : p ∈ l) (h : p.user_id ≠ uid) : p ∈ markConnectedFirst l uid := by
  induction l with
  | nil => cases hp
  | cons q rest ih =>
    rcases List.mem_cons.mp hp with rfl | hmem
    · have hq : ¬p.user_id = uid := h
      simp [markConnectedFirst, hq]
    · by_cases hq : q.user_id = uid
      · simp [markConnectedFirst, hq, hmem]
      · simp only [markConnectedFirst, hq, if_false, List.mem_cons]
        exact Or.inr (ih hmem)

/-- C3 counterexample: `userA` is already a member of `fullLobby`
(`max_players = 2`, two players), yet join fails with the capacity
error, because both `add_player_to_lobby` implementations test
`len(players) >= max_players` before testing membership. -/
theorem member_rejoin_full_lobby_capacity_error :
    fullLobby.players.any (fun p => p.user_id = userA._id) = true ∧
    fullLobby.players.length = 2 ∧ fullLobby.max_players = 2 ∧
    add_player_to_lobby (some fullLobby) userA = .error "Lobby is full" :=
  ⟨by decide, by decide, by decide, rfl⟩

/-- C3 (amended): whenever `len(players) >= max_players`, every join —
by a member or not — fails with the capacity error; a join by an
already-member of a non-full lobby succeeds, leaves the player count and
roster unchanged apart from possibly setting that member `connected`,
and keeps every other player untouched; a join by a non-member of a
non-full lobby appends exactly one fresh player entry. -/
theorem add_player_capacity_and_rejoin (lobby : Lobby) (user : User) :
    (lobby.max_players ≤ (lobby.players.length : ℤ) →
      add_player_to_lobby (some lobby) user = .error "Lobby is full") ∧
    ((lobby.players.length : ℤ) < lobby.max_players →
      lobby.players.any (fun p => p.user_id = user._id) = true →
      ∃ l2, add_player_to_lobby (some lobby) user = .ok l2 ∧
        l2.players.length = lobby.players.length ∧
        l2.players.map Player.user_id = lobby.players.map Player.user_id ∧
        l2.players.map withConnectedTrue = lobby.players.map withConnectedTrue ∧
        ∀ p ∈ lobby.players, p.user_id ≠ user._id → p ∈ l2.players) ∧
    ((lobby.players.length : ℤ) < lobby.max_players →
      lobby.players.any (fun p => p.user_id = user._id) = false →
      add_player_to_lobby (some lobby) user =
        .ok { lobby with players := lobby.players ++ [newPlayerOf user] }) := by
  refine ⟨?_, ?_, ?_⟩
  · intro h
    simp [add_player_to_lobby, h]
  · intro hlen hmem
    have heq : add_player_to_lobby (some lobby) user =
        .ok { lobby with players := markConnectedFirst lobby.players user._id } := by
      simp [add_player_to_lobby, not_le.mpr hlen, hmem]
    refine ⟨_, heq, ?_, ?_, ?_, ?_⟩
    · simpa using length_markConnectedFirst lobby.players user._id
    · simpa using map_user_id_markConnectedFirst lobby.players user._id
    · simpa using map_withConnectedTrue_markConnectedFirst lobby.players user._id
    · intro p hp hne
      simpa using mem_markConnectedFirst_of_ne hp hne
  · intro hlen hmem
    simp [add_player_to_lobby, not_le.mpr hlen, hmem]

/-- Witness for C3: `userA` rejoining the non-full `roomyLobby`. -/
theorem add_player_capacity_and_rejoin_witness :
    (roomyLobby.players.length : ℤ) < roomyLobby.max_players ∧
    roomyLobby.players.any (fun p => p.user_id = userA._id) = true ∧
    (∃ l2, add_player_to_lobby (some roomyLobby) userA = .ok l2 ∧
      l2.players.length = roomyLobby.players.length ∧
      l2.players.map Player.user_id = roomyLobby.players.map Player.user_id ∧
      l2.players.map withConnectedTrue = roomyLobby.players.map withConnectedTrue ∧
      ∀ p ∈ roomyLobby.players, p.user_id ≠ userA._id → p ∈ l2.players) :=
  ⟨by decide, by decide,
    (add_player_capacity_and_rejoin roomyLobby userA).2.1 (by decide) (by decide)⟩

theorem awardsFrom_map_fst (b : ℕ) : ∀ (r : ℕ) (l : List (String × ℕ)),
    (awardsFrom b r l).map Prod.fst = l.map Prod.fst := by
  intro r l
  induction l generalizing r with
  | nil => rfl
  | cons p rest ih => simp [awardsFrom, ih]

theorem awardsFrom_of_two_le (b : ℕ) : ∀ (r : ℕ), 2 ≤ r → ∀ l : List (String × ℕ),
    awardsFrom b r l = l.map (fun q => (q.1, q.2 / 10)) := by
  intro r hr l
  induction l generalizing r with
  | nil => rfl
  | cons p rest ih =>
    have hr1 : ¬r = 1 := by omega
    simp [awardsFrom, hr1, ih (r + 1) (by omega)]

theorem applyAwards_not_mem : ∀ (awards : List (String × ℕ)) (st : String → ℕ) (u : String),
    u ∉ awards.map Prod.fst → applyAwards awards st u = st u := by
  intro awards
  induction awards with
  | nil => intro st u _; rfl
  | cons a rest ih =>
    intro st u hu
    simp only [List.map_cons, List.mem_cons, not_or] at hu
    rw [applyAwards, ih _ u hu.2, if_neg hu.1]

theorem applyAwards_mem : ∀ (awards : List (String × ℕ)) (st : String → ℕ) (u : String) (x : ℕ),
    (u, x) ∈ awards → (awards.map Prod.fst).Nodup → applyAwards awards st u = st u + x := by
  intro awards
  induction awards with
  | nil => intro st u x h _; cases h
  | cons a rest ih =>
    intro st u x h hnd
    simp only [List.map_cons, List.nodup_cons] at hnd
    rcases List.mem_cons.mp h with rfl | hmem
    · rw [applyAwards, applyAwards_not_mem _ _ _ (by simpa using hnd.1), if_pos rfl]
    · have hne : a.1 ≠ u := by
        intro he
        exact hnd.1 (he ▸ List.mem_map_of_mem Prod.fst hmem)
      rw [applyAwards, ih _ u x hmem hnd.2, if_neg (Ne.symm hne)]

/-- C4: `finalize_game` ranks players in descending order of final score
(as a permutation of the submitted scores); each player is awarded
`xp = floor(score / 10)`, with the additional first-place bonus
`10 * (player_count - 1)` added only to the rank-1 entry and no bonus
when there are at most one player; and the `xp_awarded` map reported to
clients is exactly the amount persisted for each player. -/
theorem finalize_game_ranking_and_xp (ps : List (String × ℕ)) (st : String → ℕ)
    (hnd : (ps.map Prod.fst).Nodup) :
    List.Sorted (fun a b : String × ℕ => b.2 ≤ a.2) (finalize_game ps st).ranked ∧
    (finalize_game ps st).ranked.Perm ps ∧
    (finalize_game ps st).xp_awarded =
      (match (finalize_game ps st).ranked with
       | [] => []
       | top :: rest =>
         (top.1, top.2 / 10 + if 1 < ps.length then 10 * (ps.length - 1) else 0)
           :: rest.map (fun q => (q.1, q.2 / 10))) ∧
    (∀ u x, (u, x) ∈ (finalize_game ps st).xp_awarded →
      (finalize_game ps st).xp_store u = st u + x) ∧
    (∀ u, u ∉ ps.map Prod.fst → (finalize_game ps st).xp_store u = st u) := by
  haveI : IsTotal (String × ℕ) (fun a b : String × ℕ => b.2 ≤ a.2) :=
    ⟨fun a b => (le_total a.2 b.2).symm⟩
  haveI : IsTrans (String × ℕ) (fun a b : String × ℕ => b.2 ≤ a.2) :=
    ⟨fun _ _ _ hab hbc => le_trans hbc hab⟩
  have hperm : (finalize_game ps st).ranked.Perm ps :=
    List.perm_insertionSort _ ps
  have hkeys : (finalize_game ps st).xp_awarded.map Prod.fst =
      (finalize_game ps st).ranked.map Prod.fst := by
    simp [finalize_game, awardsFrom_map_fst]
  have hkeysperm : ((finalize_game ps st).xp_awarded.map Prod.fst).Perm (ps.map Prod.fst) := by
    rw [hkeys]
    exact hperm.map Prod.fst
  have hkeysnd : ((finalize_game ps st).xp_awarded.map Prod.fst).Nodup :=
    (hkeysperm.nodup_iff).mpr hnd
  refine ⟨List.sorted_insertionSort _ ps, hperm, ?_, ?_, ?_⟩
  · rcases hr : List.insertionSort (fun a b : String × ℕ => b.2 ≤ a.2) ps with _ | ⟨top, rest⟩
    · simp [finalize_game, hr, awardsFrom]
    · simp [finalize_game, hr, awardsFrom, awardsFrom_of_two_le _ 2 (by omega)]
  · intro u x hux
    have : (finalize_game ps st).xp_store =
        applyAwards (finalize_game ps st).xp_awarded st := rfl
    rw [this]
    exact applyAwards_mem _ st u x hux hkeysnd
  · intro u hu
    have : (finalize_game ps st).xp_store =
        applyAwards (finalize_game ps st).xp_awarded st := rfl
    rw [this]
    refine applyAwards_not_mem _ st u ?_
    intro hmem
    exact hu (hkeysperm.mem_iff.mp hmem)

/-- Witness for C4 at two players with distinct ids. -/
theorem finalize_game_ranking_and_xp_witness :
    ((([("u1", 105), ("u2", 250)] : List (String × ℕ)).map Prod.fst).Nodup) ∧
    (List.Sorted (fun a b : String × ℕ => b.2 ≤ a.2)
      (finalize_game [("u1", 105), ("u2", 250)] (fun _ => 0)).ranked ∧
    (finalize_game [("u1", 105), ("u2", 250)] (fun _ => 0)).ranked.Perm
      [("u1", 105), ("u2", 250)] ∧
    (finalize_game [("u1", 105), ("u2", 250)] (fun _ => 0)).xp_awarded =
      (match (finalize_game [("u1", 105), ("u2", 250)] (fun _ => 0)).ranked with
       | [] => []
       | top :: rest =>
         (top.1, top.2 / 10 +
            if 1 < ([("u1", 105), ("u2", 250)] : List (String × ℕ)).length then
              10 * (([("u1", 105), ("u2", 250)] : List (String × ℕ)).length - 1)
            else 0)
           :: rest.map (fun q => (q.1, q.2 / 10))) ∧
    (∀ u x, (u, x) ∈ (finalize_game [("u1", 105), ("u2", 250)] (fun _ => 0)).xp_awarded →
      (finalize_game [("u1", 105), ("u2", 250)] (fun _ => 0)).xp_store u = (fun _ => 0) u + x) ∧
    (∀ u, u ∉ ([("u1", 105), ("u2", 250)] : List (String × ℕ)).map Prod.fst →
      (finalize_game [("u1", 105), ("u2", 250)] (fun _ => 0)).xp_store u = (fun _ => 0) u)) :=
  ⟨by decide, finalize_game_ranking_and_xp [("u1", 105), ("u2", 250)] (fun _ => 0) (by decide)⟩

theorem genSet_ok_length (gen : GenOracle) (s : QuestionSetSpec) :
    ∀ (k i : ℕ) (qs : List Question), genSet gen s i k = .ok qs → qs.length = k := by
  intro k
  induction k with
  | zero =>
    intro i qs h
    simp [genSet] at h
    simp [← h]
  | succ k ih =>
    intro i qs h
    rw [genSet] at h
    rcases hg : gen s i with _ | q
    · rw [hg] at h
      cases h
    · rw [hg] at h
      rcases hrest : genSet gen s (i + 1) k with e | qs2
      · rw [hrest] at h
        cases h
      · rw [hrest] at h
        cases h
        simpa using ih (i + 1) qs2 hrest

theorem genSet_isOk_iff (gen : GenOracle) (s : QuestionSetSpec) :
    ∀ (k i : ℕ), (∃ qs, genSet gen s i k = .ok qs) ↔
      ∀ j < k, (gen s (i + j)).isSome = true := by
  intro k
  induction k with
  | zero =>
    intro i
    constructor
    · intro _ j hj
      omega
    · intro _
      exact ⟨[], rfl⟩
  | succ k ih =>
    intro i
    constructor
    · rintro ⟨qs, h⟩ j hj
      rw [genSet] at h
      rcases hg : gen s i with _ | q
      · rw [hg] at h
        cases h
      · rw [hg] at h
        rcases hrest : genSet gen s (i + 1) k with e | qs2
        · rw [hrest] at h
          cases h
        · rcases Nat.lt_or_ge j 1 with hj1 | hj1
          · have : j = 0 := by omega
            subst this
            simpa [hg]
          · have hj2 : j - 1 < k := by omega
            have := ((ih (i + 1)).mp ⟨qs2, hrest⟩) (j - 1) hj2
            have harg : i + 1 + (j - 1) = i + j := by omega
            rwa [harg] at this
    · intro hall
      have hg0 : (gen s i).isSome = true := by simpa using hall 0 (by omega)
      rcases hg : gen s i with _ | q
      · rw [hg] at hg0
        cases hg0
      · have hrest : ∃ qs, genSet gen s (i + 1) k = .ok qs := by
          refine (ih (i + 1)).mpr ?_
          intro j hj
          have harg : i + 1 + j = i + (j + 1) := by omega
          rw [harg]
          exact hall (j + 1) (by omega)
        rcases hrest with ⟨qs2, hrest⟩
        refine ⟨q :: qs2, ?_⟩
        rw [genSet, hg, hrest]

theorem generateQuestions_ok_length (gen : GenOracle) :
    ∀ (plan : List QuestionSetSpec) (qs : List Question),
      generateQuestions gen plan = .ok qs → qs.length = totalExpected plan := by
  intro plan
  induction plan with
  | nil =>
    intro qs h
    simp [generateQuestions] at h
    simp [← h, totalExpected]
  | cons s rest ih =>
    intro qs h
    rw [generateQuestions] at h
    rcases hset : genSet gen s 0 s.count with e | qs1
    · rw [hset] at h
      cases h
    · rw [hset] at h
      rcases hrest : generateQuestions gen rest with e | qs2
      · rw [hrest] at h
        cases h
      · rw [hrest] at h
        cases h
        have h1 := genSet_ok_length gen s s.count 0 qs1 hset
        have h2 := ih qs2 hrest
        simp [totalExpected, h1, h2]

theorem generateQuestions_isOk_iff (gen : GenOracle) :
    ∀ plan : List QuestionSetSpec,
      (∃ qs, generateQuestions gen plan = .ok qs) ↔ allGenerated gen plan := by
  intro plan
  induction plan with
  | nil =>
    constructor
    · intro _ s hs
      cases hs
    · intro _
      exact ⟨[], rfl⟩
  | cons s rest ih =>
    constructor
    · rintro ⟨qs, h⟩
      rw [generateQuestions] at h
      rcases hset : genSet gen s 0 s.count with e | qs1
      · rw [hset] at h
        cases h
      · rw [hset] at h
        rcases hrest : generateQuestions gen rest with e | qs2
        · rw [hrest] at h
          cases h
        · intro s2 hs2 j hj
          rcases List.mem_cons.mp hs2 with rfl | hmem
          · have := ((genSet_isOk_iff gen s2 s2.count 0).mp ⟨qs1, hset⟩) j hj
            simpa using this
          · exact ((ih.mp ⟨qs2, hrest⟩) s2 hmem) j hj
    · intro hall
      have hset : ∃ qs, genSet gen s 0 s.count = .ok qs := by
        refine (genSet_isOk_iff gen s s.count 0).mpr ?_
        intro j hj
        simpa using hall s (List.mem_cons_self s rest) j hj
      have hrest : ∃ qs, generateQuestions gen rest = .ok qs :=
        ih.mpr (fun s2 hs2 => hall s2 (List.mem_cons_of_mem s hs2))
      rcases hset with ⟨qs1, hset⟩
      rcases hrest with ⟨qs2, hrest⟩
      refine ⟨qs1 ++ qs2, ?_⟩
      rw [generateQuestions, hset, hrest]

/-- C6: session creation stores a session exactly when every question of
the plan was generated: on any generation failure the request returns an
error and the session collection is unchanged, and on success the single
stored session holds exactly the planned number of questions — no
partial sessions exist. -/
theorem create_game_session_all_or_nothing (gen : GenOracle) (l : Lobby)
    (plan : List QuestionSetSpec) (store : List GameSession) (hplan : plan ≠ []) :
    (¬allGenerated gen plan →
      (create_game_session gen (some l) plan store).2 = store ∧
      ∃ e, (create_game_session gen (some l) plan store).1 = .error e) ∧
    (allGenerated gen plan →
      ∃ qs, generateQuestions gen plan = .ok qs ∧
        qs.length = totalExpected plan ∧
        (create_game_session gen (some l) plan store).1 = .ok (mkSessionDoc l qs) ∧
        (create_game_session gen (some l) plan store).2 = store ++ [mkSessionDoc l qs]) := by
  have hne : plan.isEmpty = false := by
    cases plan with
    | nil => exact absurd rfl hplan
    | cons a rest => rfl
  constructor
  · intro hng
    rcases hcase : generateQuestions gen plan with e | qs
    · constructor
      · simp [create_game_session, hne, hcase]
      · exact ⟨e, by simp [create_game_session, hne, hcase]⟩
    · exact absurd ((generateQuestions_isOk_iff gen plan).mp ⟨qs, hcase⟩) hng
  · intro hg
    obtain ⟨qs, hqs⟩ := (generateQuestions_isOk_iff gen plan).mpr hg
    exact ⟨qs, hqs, generateQuestions_ok_length gen plan qs hqs,
      by simp [create_game_session, hne, hqs], by simp [create_game_session, hne, hqs]⟩

/-- Witness for C6 with an oracle that always generates and a plan of one
set of two questions. -/
theorem create_game_session_all_or_nothing_witness :
    ([{ category := "Science", subject := "Physics", difficulty := 2, count := 2 }] :
      List QuestionSetSpec) ≠ [] ∧
    (∃ qs, generateQuestions (fun _ _ => some sampleQuestion)
        [{ category := "Science", subject := "Physics", difficulty := 2, count := 2 }] = .ok qs ∧
      qs.length = totalExpected
        [{ category := "Science", subject := "Physics", difficulty := 2, count := 2 }] ∧
      (create_game_session (fun _ _ => some sampleQuestion) (some fullLobby)
        [{ category := "Science", subject := "Physics", difficulty := 2, count := 2 }] []).1 =
        .ok (mkSessionDoc fullLobby qs) ∧
      (create_game_session (fun _ _ => some sampleQuestion) (some fullLobby)
        [{ category := "Science", subject := "Physics", difficulty := 2, count := 2 }] []).2 =
        [] ++ [mkSessionDoc fullLobby qs]) :=
  ⟨by decide,
    (create_game_session_all_or_nothing (fun _ _ => some sampleQuestion) fullLobby
      [{ category := "Science", subject := "Physics", difficulty := 2, count := 2 }] []
      (by decide)).2 (fun _ _ j _ => rfl)⟩

/-- C7 counterexample: a request with an empty `categories` list passes
all three range checks of the claim yet is rejected without creating a
lobby; and the duplicated `LobbyController.create_lobby` accepts
`question_timer = 5`, outside `[10, 120]`, because it never validates
the timer. -/
theorem create_lobby_validation_gap :
    (route_create_lobby "ABC123" userA [] 2 30 8 []).1 =
      .error "At least one category is required" ∧
    (route_create_lobby "ABC123" userA [] 2 30 8 []).2 = [] ∧
    ((2 : ℤ) = 1 ∨ (2 : ℤ) = 2 ∨ (2 : ℤ) = 3) ∧
    (2 : ℤ) ≤ 8 ∧ (8 : ℤ) ≤ 20 ∧ (10 : ℤ) ≤ 30 ∧ (30 : ℤ) ≤ 120 ∧
    (controller_create_lobby "ABC123" userA ["General"] 2 5 8 []).1 =
      .ok (mkLobbyDoc "ABC123" userA ["General"] 2 5 8) ∧
    ¬((10 : ℤ) ≤ 5) :=
  ⟨rfl, rfl, by decide, by decide, by decide, by decide, by decide, rfl, by decide⟩

/-- C7 (amended): the REST create-lobby endpoint creates a lobby exactly
when `categories` is non-empty, `difficulty` is in `{1,2,3}`,
`max_players` is in `[2,20]` and `question_timer` is in `[10,120]`, and
on any validation error it creates nothing; the duplicated
`LobbyController.create_lobby` validates only the first three conditions
and performs no `question_timer` check. -/
theorem create_lobby_validation (code : String) (user : User) (categories : List String)
    (difficulty question_timer max_players : ℤ) (store : List Lobby) :
    ((∃ lb, (route_create_lobby code user categories difficulty question_timer
          max_players store).1 = .ok lb ∧
        (route_create_lobby code user categories difficulty question_timer
          max_players store).2 = store ++ [lb]) ↔
      (categories ≠ [] ∧ (difficulty = 1 ∨ difficulty = 2 ∨ difficulty = 3) ∧
       2 ≤ max_players ∧ max_players ≤ 20 ∧
       10 ≤ question_timer ∧ question_timer ≤ 120)) ∧
    ((∃ e, (route_create_lobby code user categories difficulty question_timer
          max_players store).1 = .error e) →
      (route_create_lobby code user categories difficulty question_timer
        max_players store).2 = store) ∧
    ((∃ lb, (controller_create_lobby code user categories difficulty question_timer
          max_players store).1 = .ok lb ∧
        (controller_create_lobby code user categories difficulty question_timer
          max_players store).2 = store ++ [lb]) ↔
      (categories ≠ [] ∧ (difficulty = 1 ∨ difficulty = 2 ∨ difficulty = 3) ∧
       2 ≤ max_players ∧ max_players ≤ 20)) := by
  unfold route_create_lobby controller_create_lobby
  split_ifs with h1 h2 h3 h4 <;>
    simp_all [List.isEmpty_iff] <;>
    omega

/-- Witness for C7: a request passing all four checks creates a lobby. -/
theorem create_lobby_validation_witness :
    ∃ lb, (route_create_lobby "ABC123" userA ["General"] 2 30 8 []).1 = .ok lb ∧
      (route_create_lobby "ABC123" userA ["General"] 2 30 8 []).2 = [] ++ [lb] :=
  (create_lobby_validation "ABC123" userA ["General"] 2 30 8 []).1.mpr
    ⟨by decide, by decide, by decide, by decide, by decide, by decide⟩

/-- C8 counterexample: at a concrete question the broadcast payload
carries the question text under the key `"question"`, not
`"question_text"` as the claim states, so the claimed exact field set is
not the emitted one. -/
theorem question_started_payload_key_mismatch :
    (question_started_payload sampleQuestion 0 3 30).map Prod.fst =
      ["question", "options", "category", "difficulty", "question_number",
       "total_questions", "time_limit"] ∧
    "question_text" ∉ (question_started_payload sampleQuestion 0 3 30).map Prod.fst :=
  ⟨rfl, by decide⟩

/-- C8 (amended): every `question_started` broadcast consists of exactly
the keys `question` (the question text), `options`, `category`,
`difficulty`, `question_number`, `total_questions` and `time_limit`;
it never carries a `correct_answer` key, and two questions identical
except for their `correct_answer` produce identical broadcasts. -/
theorem question_started_payload_fields (q q2 : Question) (idx total : ℕ) (timer : ℤ)
    (ht : q2.question_text = q.question_text) (ho : q2.options = q.options)
    (hc : q2.category = q.category) (hd : q2.difficulty = q.difficulty) :
    (question_started_payload q idx total timer).map Prod.fst =
      ["question", "options", "category", "difficulty", "question_number",
       "total_questions", "time_limit"] ∧
    "correct_answer" ∉ (question_started_payload q idx total timer).map Prod.fst ∧
    question_started_payload q idx total timer =
      question_started_payload q2 idx total timer := by
  have hkeys : (question_started_payload q idx total timer).map Prod.fst =
      ["question", "options", "category", "difficulty", "question_number",
       "total_questions", "time_limit"] := rfl
  refine ⟨rfl, ?_, ?_⟩
  · rw [hkeys]
    decide
  · simp [question_started_payload, ht, ho, hc, hd]

/-- Witness for C8 at two questions differing only in `correct_answer`. -/
theorem question_started_payload_fields_witness :
    (question_started_payload sampleQuestion 0 3 30).map Prod.fst =
      ["question", "options", "category", "difficulty", "question_number",
       "total_questions", "time_limit"] ∧
    "correct_answer" ∉ (question_started_payload sampleQuestion 0 3 30).map Prod.fst ∧
    question_started_payload sampleQuestion 0 3 30 =
      question_started_payload sampleQuestionAlt 0 3 30 :=
  question_started_payload_fields sampleQuestion sampleQuestionAlt 0 3 30 rfl rfl rfl rfl

/-- C10: for every accepted answer submission, correct or not, the
per-submitter acknowledgment carries the active question's
`correct_answer`: the WebSocket `answer_recorded` payload always equals
the current question's correct answer, and the REST `submit_answer`
response body of every accepted submission does too. -/
theorem answer_ack_includes_correct_answer (gs : GameState) (uid ans : String) (t : ℚ)
    (s : GameSession) (lobby : Lobby) (uid2 ans2 : String) (t2 : ℚ)
    {s2 : GameSession} {resp : SubmitResponse}
    (h : rest_submit_answer s lobby uid2 ans2 t2 = .ok (s2, resp)) :
    (ws_submit_answer gs uid ans t).2.correct_answer =
      gs.current_question.correct_answer ∧
    ∃ q, currentQuestion? s = some q ∧ resp.correct_answer = q.correct_answer := by
  refine ⟨rfl, ?_⟩
  unfold rest_submit_answer at h
  by_cases hb : s.current_question_index < 0 ∨
      (s.questions.length : ℤ) ≤ s.current_question_index
  · rw [dif_pos hb] at h
    cases h
  · rw [dif_neg hb] at h
    by_cases ha : hasAnswerAt s uid2 s.current_question_index = true
    · rw [if_pos ha] at h
      cases h
    · rw [if_neg ha] at h
      obtain ⟨hs2, hresp⟩ := Prod.mk.inj (Except.ok.inj h).symm
      refine ⟨s.questions.get ⟨s.current_question_index.toNat, by omega⟩, ?_, ?_⟩
      · unfold currentQuestion?
        rw [dif_neg hb]
      · rw [hresp]

/-- Witness for C10 at a concrete accepted submission. -/
theorem answer_ack_includes_correct_answer_witness :
    ∃ s2 resp, rest_submit_answer sampleSession fullLobby "u2" "A" 5 = .ok (s2, resp) ∧
      ((ws_submit_answer sampleState "u1" "A" 2).2.correct_answer =
        sampleState.current_question.correct_answer ∧
       ∃ q, currentQuestion? sampleSession = some q ∧
         resp.correct_answer = q.correct_answer) :=
  ⟨_, _, rfl,
    answer_ack_includes_correct_answer sampleState "u1" "A" 2
      sampleSession fullLobby "u2" "A" 5 rfl⟩

end QuizApp

